import Mathlib

/-!
Shallow embedding of the social-media backend's Social Graph, Visibility &
Fan-out engine (Express/Mongoose controllers and models), together with
theorems checking the specification's claims against it.

Conventions of the embedding:
* Mongo ObjectIds become `Nat`; documents become structures; collections
  become `List`s in insertion order (`Model.create` appends,
  `findOne`/`find` scan in natural order).
* `findOne(filter)` with a field whose value is `undefined` follows
  Mongoose's query casting, which strips `undefined` conditions from the
  filter before it reaches MongoDB.
* Mongoose `pre('save')` hooks are applied by the `save` step of each
  operation; `findByIdAndUpdate`/`insertMany` bypass document middleware,
  exactly as in Mongoose.
* Schema `required` validation: `Model.create`/`save` reject a document
  missing a required string field (Mongoose also rejects the empty string
  for a `required` String path).
-/

namespace SMB

abbrev UserId := Nat
abbrev PostId := Nat
abbrev CommentId := Nat

/-- `Follow.status` enum from the follow schema. -/
inductive FStatus
  | pending
  | accepted
  | blocked
deriving DecidableEq, Repr

/-- `Post.visibility` enum from the post schema. -/
inductive Visibility
  | publicV
  | followersV
  | privateV
deriving DecidableEq, Repr

/-- `Notification.type` enum from the notification schema. -/
inductive NType
  | like
  | comment
  | reply
  | follow
  | followRequest
  | share
  | mention
  | tag
deriving DecidableEq, Repr

/-- `Notification.entityType` enum from the notification schema. -/
inductive EType
  | post
  | comment
  | user
deriving DecidableEq, Repr

/-- A User document (the fields the engine reads/writes: privacy flag,
active flag and the denormalized follower/following counters). -/
structure User where
  id : UserId
  username : String
  isPrivate : Bool
  isActive : Bool
  followersCount : Int
  followingCount : Int
deriving DecidableEq, Repr

/-- A Follow document: directed edge `follower -> following` with a status. -/
structure FollowDoc where
  follower : UserId
  following : UserId
  status : FStatus
deriving DecidableEq, Repr

/-- A Notification document (message text kept; timestamps dropped). -/
structure Notif where
  recipient : UserId
  sender : UserId
  ntype : NType
  entityType : EType
  entityId : Nat
  message : String
  groupKey : Option String
deriving DecidableEq, Repr

/-- A Post document. `likes`/`shares` keep only the `user` field of the
embedded subdocuments (their `createdAt` is never read by the engine);
`comments` is the array of comment ids. -/
structure Post where
  id : PostId
  author : UserId
  content : String
  visibility : Visibility
  likes : List UserId
  likesCount : Int
  comments : List CommentId
  commentsCount : Int
  shares : List UserId
  sharesCount : Int
  mentions : List UserId
  sharedPost : Option PostId
  shareText : Option String
  isActive : Bool
  createdAt : Nat
deriving DecidableEq, Repr

/-- A Comment document (fields read by `getComments`/`createComment`). -/
structure Comment where
  id : CommentId
  author : UserId
  post : PostId
  content : String
  parentComment : Option CommentId
  isActive : Bool
deriving DecidableEq, Repr

/-- The document store: one list per collection, in insertion order,
plus fresh-id counters standing for ObjectId generation. -/
structure DB where
  users : List User := []
  follows : List FollowDoc := []
  posts : List Post := []
  comments : List Comment := []
  notifs : List Notif := []
  nextPostId : Nat := 0
  nextCommentId : Nat := 0
deriving DecidableEq, Repr

/-- `notificationSchema.pre('save')`: derive `groupKey` for like/comment
notifications on posts. -/
def notifPreSave (n : Notif) : Notif :=
  if n.ntype = NType.like ∧ n.entityType = EType.post then
    { n with groupKey := some ("post_like_" ++ toString n.entityId) }
  else if n.ntype = NType.comment ∧ n.entityType = EType.post then
    { n with groupKey := some ("post_comment_" ++ toString n.entityId) }
  else n

/-- `Notification.createNotification(data)`: `new this(data)` + `save()`
(which runs the pre-save hook). -/
def createNotif (n : Notif) : Notif := notifPreSave n

/-- `User.findById` / `findOne({_id: uid})`. -/
def findUser (users : List User) (uid : UserId) : Option User :=
  users.find? (fun u => u.id == uid)

/-- `User.findByIdAndUpdate(uid, {$inc: {followingCount: d}})`. -/
def incFollowingCount (users : List User) (uid : UserId) (d : Int) : List User :=
  users.map (fun u => if u.id = uid then { u with followingCount := u.followingCount + d } else u)

/-- `User.findByIdAndUpdate(uid, {$inc: {followersCount: d}})`. -/
def incFollowersCount (users : List User) (uid : UserId) (d : Int) : List User :=
  users.map (fun u => if u.id = uid then { u with followersCount := u.followersCount + d } else u)

/-- `findOneAndDelete`: remove the first document matching the filter,
returning it (or `none`) and the remaining collection. -/
def deleteFirst (p : FollowDoc → Bool) : List FollowDoc → Option FollowDoc × List FollowDoc
  | [] => (none, [])
  | e :: es =>
    if p e then (some e, es)
    else
      let r := deleteFirst p es
      (r.1, e :: r.2)

/-- `findOne` + in-place mutation + `save()` on the matched document:
update the first document matching the filter. -/
def updateFirst (p : FollowDoc → Bool) (f : FollowDoc → FollowDoc) :
    List FollowDoc → List FollowDoc
  | [] => []
  | e :: es => if p e then f e :: es else e :: updateFirst p f es

namespace Follow

/-- `followSchema.statics.isFollowing(followerId, followingId)`:
`findOne({follower: followerId, following: followingId, status: 'accepted'})`.
`followerId` is `Option`al because callers pass `req.user?._id`; when it is
`undefined`, Mongoose query casting deletes the `follower` condition from
the filter, so the query matches ANY accepted edge pointing at
`followingId`. The JS function returns the matched document or `null`;
callers use it for its truthiness. -/
def isFollowing (follows : List FollowDoc) (followerId : Option UserId)
    (followingId : UserId) : Option FollowDoc :=
  follows.find? (fun e =>
    (match followerId with
     | some f => e.follower == f
     | none => true) &&
    e.following == followingId && e.status == FStatus.accepted)

/-- Truthiness coercion `!!(await Follow.isFollowing(...))` used at call sites. -/
def isFollowingB (follows : List FollowDoc) (followerId : Option UserId)
    (followingId : UserId) : Bool :=
  (isFollowing follows followerId followingId).isSome

end Follow

/-- Outcome of `followUser` (HTTP branches of the controller). -/
inductive ReqRes
  | selfError
  | userNotFound
  | alreadyFollowing
  | created (status : FStatus)
deriving DecidableEq, Repr

/-- Outcome of ack-style controllers (`unfollow`, `accept`, `reject`). -/
inductive AckRes
  | notFound
  | ok
deriving DecidableEq, Repr

/-- `followController.followUser`: self-check, target lookup + active check,
duplicate-edge check, edge creation with status `pending` for a private
target (`accepted` otherwise), `$inc` of BOTH counters unconditionally, and
a `follow` / `follow_request` notification to the target. -/
def followUser (db : DB) (actor : UserId) (actorName : String) (userId : UserId) :
    ReqRes × DB :=
  if userId = actor then (ReqRes.selfError, db)
  else
    match findUser db.users userId with
    | none => (ReqRes.userNotFound, db)
    | some target =>
      if !target.isActive then (ReqRes.userNotFound, db)
      else
        match db.follows.find? (fun e => e.follower == actor && e.following == userId) with
        | some _ => (ReqRes.alreadyFollowing, db)
        | none =>
          let status := if target.isPrivate then FStatus.pending else FStatus.accepted
          let edge : FollowDoc := { follower := actor, following := userId, status := status }
          let users1 := incFollowingCount db.users actor 1
          let users2 := incFollowersCount users1 userId 1
          let notif :=
            if !target.isPrivate then
              createNotif { recipient := userId, sender := actor, ntype := NType.follow,
                            entityType := EType.user, entityId := actor,
                            message := actorName ++ " started following you",
                            groupKey := none }
            else
              createNotif { recipient := userId, sender := actor, ntype := NType.followRequest,
                            entityType := EType.user, entityId := actor,
                            message := actorName ++ " sent you a follow request",
                            groupKey := none }
          (ReqRes.created status,
           { db with follows := db.follows ++ [edge], users := users2,
                     notifs := db.notifs ++ [notif] })

/-- `followController.unfollowUser`: `findOneAndDelete` on the (follower,
following) pair regardless of status; on success `$inc` both counters by -1. -/
def unfollowUser (db : DB) (actor : UserId) (userId : UserId) : AckRes × DB :=
  let r := deleteFirst (fun e => e.follower == actor && e.following == userId) db.follows
  match r.1 with
  | none => (AckRes.notFound, db)
  | some _ =>
    let users1 := incFollowingCount db.users actor (-1)
    let users2 := incFollowersCount users1 userId (-1)
    (AckRes.ok, { db with follows := r.2, users := users2 })

/-- `followController.acceptFollowRequest`: find the pending edge
`(userId -> owner)`, set its status to `accepted` and save; notify the
follower. No counter update is performed here. -/
def acceptFollowRequest (db : DB) (owner : UserId) (ownerName : String)
    (userId : UserId) : AckRes × DB :=
  match db.follows.find? (fun e =>
      e.follower == userId && e.following == owner && e.status == FStatus.pending) with
  | none => (AckRes.notFound, db)
  | some _ =>
    let follows1 := updateFirst
      (fun e => e.follower == userId && e.following == owner && e.status == FStatus.pending)
      (fun e => { e with status := FStatus.accepted }) db.follows
    let notif := createNotif { recipient := userId, sender := owner, ntype := NType.follow,
                               entityType := EType.user, entityId := owner,
                               message := ownerName ++ " accepted your follow request",
                               groupKey := none }
    (AckRes.ok, { db with follows := follows1, notifs := db.notifs ++ [notif] })

/-- `followController.rejectFollowRequest`: `findOneAndDelete` the pending
edge `(userId -> owner)`; no counter change. -/
def rejectFollowRequest (db : DB) (owner : UserId) (userId : UserId) : AckRes × DB :=
  let r := deleteFirst (fun e =>
    e.follower == userId && e.following == owner && e.status == FStatus.pending) db.follows
  match r.1 with
  | none => (AckRes.notFound, db)
  | some _ => (AckRes.ok, { db with follows := r.2 })

/-- `followController.getFollowStatus`: one `findOne` on the (viewer, target)
pair; both flags are derived from that single document's status. -/
def getFollowStatus (db : DB) (viewer : UserId) (userId : UserId) : Bool × Bool :=
  match db.follows.find? (fun e => e.follower == viewer && e.following == userId) with
  | none => (false, false)
  | some e => (e.status == FStatus.accepted, e.status == FStatus.pending)

/-- Number of accepted edges targeting `uid` (the authoritative follower set
size the spec's invariant refers to). -/
def acceptedFollowerEdges (db : DB) (uid : UserId) : Nat :=
  (db.follows.filter (fun e => e.following == uid && e.status == FStatus.accepted)).length

/-- Number of accepted edges with `uid` as follower. -/
def acceptedFollowingEdges (db : DB) (uid : UserId) : Nat :=
  (db.follows.filter (fun e => e.follower == uid && e.status == FStatus.accepted)).length

/-- The stored `followersCount` of a user (0 if absent). -/
def followersCountOf (db : DB) (uid : UserId) : Int :=
  match findUser db.users uid with
  | some u => u.followersCount
  | none => 0

/-- The stored `followingCount` of a user (0 if absent). -/
def followingCountOf (db : DB) (uid : UserId) : Int :=
  match findUser db.users uid with
  | some u => u.followingCount
  | none => 0

/-- `postSchema.pre('save')`: recompute `likesCount` when the `likes` path
was modified in this save, and `sharesCount` when `shares` was; nothing
else (in particular `commentsCount` is never touched). -/
def postPreSave (modifiedLikes modifiedShares : Bool) (p : Post) : Post :=
  let p1 := if modifiedLikes then { p with likesCount := (p.likes.length : Int) } else p
  if modifiedShares then { p1 with sharesCount := (p1.shares.length : Int) } else p1

/-- `postSchema` validation of the `content` path on `create`/`save`:
`required` (Mongoose rejects a missing value, and the empty string, for a
required String path) and `maxlength: 2000`. -/
def postContentValid (content : Option String) : Bool :=
  match content with
  | none => false
  | some s => s.length != 0 && s.length <= 2000

/-- Result of `postController.createPost`. -/
inductive CreatePostRes
  | serverError
  | created (post : Post)
deriving DecidableEq, Repr

/-- `postController.createPost`: `Post.create({author, content, visibility,
mentions, ...})` (validation failure is caught as a 500), then one `mention`
notification per entry of `mentions` via `Notification.insertMany` (which
bypasses the pre-save hook). There is no check that a mentioned user is
distinct from the author. -/
def createPost (db : DB) (actor : UserId) (actorName : String)
    (content : Option String) (visibility : Visibility) (mentions : List UserId)
    (now : Nat) : CreatePostRes × DB :=
  if !postContentValid content then (CreatePostRes.serverError, db)
  else
    let post : Post :=
      { id := db.nextPostId, author := actor, content := content.getD "",
        visibility := visibility, likes := [], likesCount := 0, comments := [],
        commentsCount := 0, shares := [], sharesCount := 0, mentions := mentions,
        sharedPost := none, shareText := none, isActive := true, createdAt := now }
    let mentionNotifs := mentions.map (fun uid =>
      { recipient := uid, sender := actor, ntype := NType.mention,
        entityType := EType.post, entityId := post.id,
        message := actorName ++ " mentioned you in a post",
        groupKey := none : Notif })
    (CreatePostRes.created post,
     { db with posts := db.posts ++ [post], notifs := db.notifs ++ mentionNotifs,
               nextPostId := db.nextPostId + 1 })

/-- Response body of `likePost`: `{likesCount, isLiked}`. -/
structure LikeRes where
  likesCount : Int
  isLiked : Bool
deriving DecidableEq, Repr

/-- `postSchema.methods.isLikedBy(userId)`. -/
def Post.isLikedBy (p : Post) (u : UserId) : Bool :=
  p.likes.any (fun l => l == u)

/-- `postController.likePost` on an already-loaded post: 404 when inactive;
otherwise toggle the actor in the `likes` array, `save()` (pre-save hook
fires with `likes` modified), emit a `like` notification only on the liking
transition and only when the actor is not the author. Returns the updated
post, the response body and the notifications created. -/
def likePost (p : Post) (u : UserId) (uname : String) :
    Option (Post × LikeRes × List Notif) :=
  if !p.isActive then none
  else
    let isLiked := p.isLikedBy u
    let likes1 := if isLiked then p.likes.filter (fun l => l != u) else p.likes ++ [u]
    let p1 := postPreSave true false { p with likes := likes1 }
    let notifs :=
      if !isLiked ∧ p.author ≠ u then
        [createNotif { recipient := p.author, sender := u, ntype := NType.like,
                       entityType := EType.post, entityId := p.id,
                       message := uname ++ " liked your post", groupKey := none }]
      else []
    some (p1, { likesCount := p1.likesCount, isLiked := !isLiked }, notifs)

/-- Result of `postController.sharePost`. -/
inductive ShareRes
  | notFound
  | serverError
  | created (shared : Post) (orig : Post) (notifs : List Notif)
deriving DecidableEq, Repr

/-- `postController.sharePost` on an already-loaded original post: 404 when
missing/inactive; then `Post.create({author, sharedPost, shareText,
visibility: 'public'})` — note this passes NO `content`, so the schema's
`required` validation on `content` rejects the document and the controller's
catch block answers 500; the push onto `originalPost.shares`, the save and
the `share` notification are never reached. The post-creation shape is kept
here so the intended successful path is visible. -/
def sharePost (orig : Post) (u : UserId) (uname : String) (shareText : String)
    (freshId : PostId) (now : Nat) : ShareRes :=
  if !orig.isActive then ShareRes.notFound
  else
    let content : Option String := none
    if !postContentValid content then ShareRes.serverError
    else
      let shared : Post :=
        { id := freshId, author := u, content := content.getD "",
          visibility := Visibility.publicV, likes := [], likesCount := 0,
          comments := [], commentsCount := 0, shares := [], sharesCount := 0,
          mentions := [], sharedPost := some orig.id, shareText := some shareText,
          isActive := true, createdAt := now }
      let orig1 := postPreSave false true { orig with shares := orig.shares ++ [u] }
      let notifs :=
        if orig.author ≠ u then
          [createNotif { recipient := orig.author, sender := u, ntype := NType.share,
                         entityType := EType.post, entityId := orig.id,
                         message := uname ++ " shared your post", groupKey := none }]
        else []
      ShareRes.created shared orig1 notifs

/-- The post-side effect of `commentController.createComment`:
`post.comments.push(comment._id)` followed by `post.save()` — the pre-save
hook fires with neither `likes` nor `shares` modified. -/
def postAddComment (p : Post) (cid : CommentId) : Post :=
  postPreSave false false { p with comments := p.comments ++ [cid] }

/-- The post-side effect of `commentController.deleteComment`:
`Post.findByIdAndUpdate(comment.post, {$pull: {comments: comment._id}})`,
which bypasses document middleware entirely. -/
def postPullComment (p : Post) (cid : CommentId) : Post :=
  { p with comments := p.comments.filter (fun c => c != cid) }

/-- Authorization outcome of a read endpoint. -/
inductive ViewRes
  | notFound
  | forbidden
  | allowed
deriving DecidableEq, Repr

/-- The visibility decision of `postController.getPost`: 404 on a missing or
inactive post; 403 on a private post unless the viewer is the author (an
anonymous viewer's `req.user?._id.toString()` short-circuits to `undefined`,
which never equals the author id string); 403 on a followers-only post for
an anonymous viewer; 403 on a followers-only post when the authenticated
viewer neither follows the author (accepted edge) nor is the author. -/
def getPostDecision (db : DB) (viewer : Option UserId) (pid : PostId) : ViewRes :=
  match db.posts.find? (fun p => p.id == pid) with
  | none => ViewRes.notFound
  | some post =>
    if !post.isActive then ViewRes.notFound
    else if post.visibility = Visibility.privateV ∧ viewer ≠ some post.author then
      ViewRes.forbidden
    else if post.visibility = Visibility.followersV ∧ viewer = none then ViewRes.forbidden
    else
      match viewer with
      | some v =>
        if post.visibility = Visibility.followersV ∧
           Follow.isFollowingB db.follows (some v) post.author = false ∧
           post.author ≠ v then ViewRes.forbidden
        else ViewRes.allowed
      | none => ViewRes.allowed

/-- `commentController.getComments`: 404 on a missing or inactive post; then
the source skips the visibility check (the body holds only the comment
"visibility checks would go here") and returns the post's top-level active
comments to ANY viewer. The viewer argument is therefore unused. -/
def getComments (db : DB) (_viewer : Option UserId) (pid : PostId) :
    ViewRes × List Comment :=
  match db.posts.find? (fun p => p.id == pid) with
  | none => (ViewRes.notFound, [])
  | some post =>
    if !post.isActive then (ViewRes.notFound, [])
    else
      (ViewRes.allowed,
       db.comments.filter (fun c => c.post == pid && c.parentComment == none && c.isActive))

/-- The fields of a post document as persisted in MongoDB, looked up by
field name for `sort` specifications. `engagementCount` is a Mongoose
virtual: it is computed by a getter in the application layer and is NOT a
stored field, so a server-side sort finds no such field on any document. -/
def postStoredField (p : Post) (f : String) : Option Int :=
  if f = "likesCount" then some p.likesCount
  else if f = "commentsCount" then some p.commentsCount
  else if f = "sharesCount" then some p.sharesCount
  else if f = "createdAt" then some (p.createdAt : Int)
  else none

/-- MongoDB descending comparison on an optional sort key: a missing field
sorts as null, which compares below every number and equal to every other
missing field. `bsonGeDesc a b` says `a` may come no later than `b` in a
descending sort. -/
def bsonGeDesc : Option Int → Option Int → Bool
  | none, none => true
  | none, some _ => false
  | some _, none => true
  | some a, some b => decide (b ≤ a)

/-- Stable insertion into a sorted list: `x` goes before the first element
it may precede, so among key-equal documents earlier input stays earlier. -/
def insertSorted {α : Type} (le : α → α → Bool) (x : α) : List α → List α
  | [] => [x]
  | y :: ys => if le x y then x :: y :: ys else y :: insertSorted le x ys

/-- Stable sort by the given "may come no later than" relation. -/
def stableSortBy {α : Type} (le : α → α → Bool) : List α → List α
  | [] => []
  | x :: xs => insertSorted le x (stableSortBy le xs)

/-- A server-side `sort({field: -1})` over the stored documents (modelled as
a stable sort; documents whose keys compare equal keep collection order). -/
def sortByFieldDesc (field : String) (l : List Post) : List Post :=
  stableSortBy (fun a b => bsonGeDesc (postStoredField a field) (postStoredField b field)) l

/-- `postSchema.statics.getPopularPosts(page, limit)`: filter to public,
active posts created within the last 7 days (`Date.now() - 7*24*60*60*1000`
milliseconds), `sort({engagementCount: -1})` (a stored-field sort — see
`postStoredField`), then `skip((page-1)*limit).limit(limit)`. -/
def getPopularPosts (db : DB) (now : Nat) (page limit : Nat) : List Post :=
  let filtered := db.posts.filter (fun p =>
    p.visibility == Visibility.publicV && p.isActive &&
    now ≤ p.createdAt + 7 * 24 * 60 * 60 * 1000)
  ((sortByFieldDesc "engagementCount" filtered).drop ((page - 1) * limit)).take limit

/-- Modelled from the spec (for comparison with `getPopularPosts`): "active
public posts created within the last 7 days, ordered by `likesCount +
commentsCount + sharesCount` descending, ties broken by creation time
descending", paginated by page and limit. -/
def popularFeedSpec (db : DB) (now : Nat) (page limit : Nat) : List Post :=
  let filtered := db.posts.filter (fun p =>
    p.visibility == Visibility.publicV && p.isActive &&
    now ≤ p.createdAt + 7 * 24 * 60 * 60 * 1000)
  let sorted := stableSortBy (fun a b =>
    let ea := a.likesCount + a.commentsCount + a.sharesCount
    let eb := b.likesCount + b.commentsCount + b.sharesCount
    decide (eb < ea) || (ea == eb && decide (b.createdAt ≤ a.createdAt))) filtered
  (sorted.drop ((page - 1) * limit)).take limit

/-! ### Concrete fixtures used by the claim theorems -/

/-- A public, active user with zeroed counters (the follower `F`). -/
def userF : User :=
  { id := 0, username := "f", isPrivate := false, isActive := true,
    followersCount := 0, followingCount := 0 }

/-- A private, active user with zeroed counters (the target `T`). -/
def userT : User :=
  { id := 1, username := "t", isPrivate := true, isActive := true,
    followersCount := 0, followingCount := 0 }

/-- Store holding just `F` and private `T`, no edges. -/
def dbFT : DB := { users := [userF, userT] }

/-- State after `F` sends a follow request to private `T`. -/
def dbAfterRequest : DB := (followUser dbFT 0 "f" 1).2

/-- State after `T` then rejects `F`'s pending request. -/
def dbAfterReject : DB := (rejectFollowRequest dbAfterRequest 1 0).2

/-- State after `T` instead accepts `F`'s pending request. -/
def dbAfterAccept : DB := (acceptFollowRequest dbAfterRequest 1 "t" 0).2

/-- An active followers-only post by author 1 carrying one comment. -/
def postFollowersOnly : Post :=
  { id := 10, author := 1, content := "p", visibility := Visibility.followersV,
    likes := [], likesCount := 0, comments := [20], commentsCount := 0,
    shares := [], sharesCount := 0, mentions := [], sharedPost := none,
    shareText := none, isActive := true, createdAt := 0 }

/-- A top-level active comment on `postFollowersOnly`. -/
def commentOnPost : Comment :=
  { id := 20, author := 1, post := 10, content := "c", parentComment := none,
    isActive := true }

/-- Store with the followers-only post, its comment, and no follow edges. -/
def dbVisibility : DB := { posts := [postFollowersOnly], comments := [commentOnPost] }

/-- An older public post with zero engagement. -/
def postLowEngagement : Post :=
  { id := 30, author := 0, content := "old", visibility := Visibility.publicV,
    likes := [], likesCount := 0, comments := [], commentsCount := 0,
    shares := [], sharesCount := 0, mentions := [], sharedPost := none,
    shareText := none, isActive := true, createdAt := 100 }

/-- A newer public post with five likes. -/
def postHighEngagement : Post :=
  { id := 31, author := 0, content := "new", visibility := Visibility.publicV,
    likes := [4, 5, 6, 7, 8], likesCount := 5, comments := [], commentsCount := 0,
    shares := [], sharesCount := 0, mentions := [], sharedPost := none,
    shareText := none, isActive := true, createdAt := 200 }

/-- Store holding the two public posts in creation order. -/
def dbPopular : DB := { posts := [postLowEngagement, postHighEngagement] }

/-- A fresh active post by author 1 with no likes (witness input for the
like-toggle scenario). -/
def postFresh : Post :=
  { id := 3, author := 1, content := "x", visibility := Visibility.publicV,
    likes := [], likesCount := 0, comments := [], commentsCount := 0,
    shares := [], sharesCount := 0, mentions := [], sharedPost := none,
    shareText := none, isActive := true, createdAt := 0 }

/-! ### Claim theorems -/

/-- C1: the spec's invariant `followersCount(T) = |accepted edges targeting
T|` is violated by the code. After the single operation `request(F, T)`
against a private `T`, the stored counter is 1 while no accepted edge
exists; after `reject(T, F)` the edge set is empty yet the counter stays 1
forever. -/
theorem c1_followers_invariant_broken_by_pending_request :
    followersCountOf dbAfterRequest 1 = 1 ∧
    acceptedFollowerEdges dbAfterRequest 1 = 0 ∧
    followersCountOf dbAfterReject 1 = 1 ∧
    acceptedFollowerEdges dbAfterReject 1 = 0 ∧
    dbAfterReject.follows = [] := by
  decide

/-- C2: in Scenario A (private target `T`), `requestFollow(F, T)` does
return `pending` and `isFollowing(F, T)` stays false, but `followersCount(T)`
jumps from 0 to 1 at request time (the claim says it is unchanged), and the
subsequent `acceptFollow(T, F)` makes `isFollowing` true while leaving the
counter at 1 (the claim says the accept step adds exactly 1). -/
theorem c2_private_follow_counts_move_at_request_not_accept :
    (followUser dbFT 0 "f" 1).1 = ReqRes.created FStatus.pending ∧
    Follow.isFollowingB dbAfterRequest.follows (some 0) 1 = false ∧
    followersCountOf dbFT 1 = 0 ∧
    followersCountOf dbAfterRequest 1 = 1 ∧
    (acceptFollowRequest dbAfterRequest 1 "t" 0).1 = AckRes.ok ∧
    Follow.isFollowingB dbAfterAccept.follows (some 0) 1 = true ∧
    followersCountOf dbAfterAccept 1 = followersCountOf dbAfterRequest 1 := by
  decide

/-- C6: `isFollowing` with an absent `followerId` does NOT return false:
Mongoose drops the `undefined` condition, so with a single accepted edge
`2 -> 1` in the store, the anonymous query `isFollowing(undefined, 1)`
matches that edge and is truthy. -/
theorem c6_anonymous_isFollowing_is_truthy :
    Follow.isFollowingB
      [{ follower := 2, following := 1, status := FStatus.accepted }] none 1 = true := by
  decide

/-- C9: `getFollowStatus` never reports `isFollowing` and
`hasPendingRequest` both true: both flags are read off the status of the
single document returned by one `findOne`, and a status cannot be
`accepted` and `pending` at once. -/
theorem c9_follow_status_flags_mutually_exclusive :
    ∀ (db : DB) (viewer userId : UserId),
      ¬((getFollowStatus db viewer userId).1 = true ∧
        (getFollowStatus db viewer userId).2 = true) := by
  intro db viewer userId
  unfold getFollowStatus
  cases h : db.follows.find? (fun e => e.follower == viewer && e.following == userId) with
  | none => simp
  | some e => cases hs : e.status <;> simp [hs]

/-- C3: the self-notification suppression is not unconditional: `createPost`
builds one `mention` notification per entry of `mentions` with no
recipient-vs-sender check, so a post whose author mentions themself persists
a notification with `recipient = sender`. -/
theorem c3_self_mention_creates_self_notification :
    (createPost ({} : DB) 0 "alice" (some "hi") Visibility.publicV [0] 5).2.notifs =
      [{ recipient := 0, sender := 0, ntype := NType.mention,
         entityType := EType.post, entityId := 0,
         message := "alice mentioned you in a post", groupKey := none }] ∧
    ((createPost ({} : DB) 0 "alice" (some "hi") Visibility.publicV [0] 5).2.notifs.any
      (fun n => n.recipient == n.sender)) = true := by
  constructor
  · rfl
  · decide

/-- C4: the comment read path does not inherit the parent post's visibility
decision: for the followers-only post of `dbVisibility`, an authenticated
non-follower (user 2) is denied the post by `getPost` but is served the
post's comments by `getComments`, whose visibility check is an unfilled
stub. -/
theorem c4_comments_ignore_parent_post_visibility :
    getPostDecision dbVisibility (some 2) 10 = ViewRes.forbidden ∧
    (getComments dbVisibility (some 2) 10).1 = ViewRes.allowed ∧
    (getComments dbVisibility (some 2) 10).2 = [commentOnPost] := by
  decide

/-- C5: `getPopularPosts` does not order by engagement: its
`sort({engagementCount: -1})` refers to a Mongoose virtual that is not a
stored field, so every document's sort key is missing and the collection
order survives. On two recent public posts where the newer one has five
likes, the code returns them in insertion order while the spec's ordering
(engagement descending, ties by creation time descending) demands the
opposite. -/
theorem c5_popular_feed_not_ordered_by_engagement :
    getPopularPosts dbPopular 1000 1 10 = [postLowEngagement, postHighEngagement] ∧
    popularFeedSpec dbPopular 1000 1 10 = [postHighEngagement, postLowEngagement] ∧
    getPopularPosts dbPopular 1000 1 10 ≠ popularFeedSpec dbPopular 1000 1 10 := by
  refine ⟨rfl, rfl, ?_⟩
  decide

/-- C7: on an active post with no likes, the like toggle behaves as claimed:
the first call returns `{liked: true, count: 1}` and creates a `like`
notification to the author exactly when the actor is not the author; the
identical second call returns `{liked: false, count: 0}` and creates no
notification. -/
theorem c7_like_toggle (p : Post) (u : UserId) (un : String)
    (hact : p.isActive = true) (hlikes : p.likes = []) :
    ∃ p1 p2 : Post,
      likePost p u un = some (p1,
        { likesCount := 1, isLiked := true },
        if p.author = u then []
        else [{ recipient := p.author, sender := u, ntype := NType.like,
                entityType := EType.post, entityId := p.id,
                message := un ++ " liked your post",
                groupKey := some ("post_like_" ++ toString p.id) }]) ∧
      likePost p1 u un = some (p2, { likesCount := 0, isLiked := false }, []) := by
  refine ⟨{ p with likes := [u], likesCount := 1 },
          { p with likes := [], likesCount := 0 }, ?_, ?_⟩
  · by_cases h : p.author = u <;>
      simp [likePost, hact, hlikes, Post.isLikedBy, postPreSave, createNotif,
            notifPreSave, h]
  · simp [likePost, hact, Post.isLikedBy, postPreSave]

/-- C8: `sharePost` can never perform the claimed behavior, because the
share post is created without the schema-required `content` field: every
call ends in 404 (missing/inactive original) or in the catch-all 500 from
the validation failure — no share post, no `sharesCount` increment, no
notification. -/
theorem c8_share_never_succeeds :
    ∀ (orig : Post) (u : UserId) (un st : String) (fid : PostId) (now : Nat),
      sharePost orig u un st fid now = ShareRes.notFound ∨
      sharePost orig u un st fid now = ShareRes.serverError := by
  intro orig u un st fid now
  cases horig : orig.isActive
  · exact Or.inl (by simp [sharePost, horig])
  · exact Or.inr (by simp [sharePost, horig, postContentValid])

/-- C10: `commentsCount` is a frame of comment creation and deletion:
appending any number of comment ids to a post (each via push + save, whose
hook only recomputes like/share counters) and pulling a comment id (via
`findByIdAndUpdate`, which bypasses the hook) leave `commentsCount` at its
prior value. -/
theorem c10_commentsCount_never_changes :
    ∀ (p : Post) (cids : List CommentId) (cid : CommentId),
      (cids.foldl postAddComment p).commentsCount = p.commentsCount ∧
      (postPullComment p cid).commentsCount = p.commentsCount := by
  intro p cids cid
  refine ⟨?_, rfl⟩
  induction cids generalizing p with
  | nil => rfl
  | cons c cs ih => rw [List.foldl_cons, ih]; rfl

/-- Witness for C7 at the concrete fresh post (author 1) and actor 2. -/
theorem c7_like_toggle_witness :
    ∃ p1 p2 : Post,
      likePost postFresh 2 "bob" = some (p1,
        { likesCount := 1, isLiked := true },
        if postFresh.author = 2 then []
        else [{ recipient := postFresh.author, sender := 2, ntype := NType.like,
                entityType := EType.post, entityId := postFresh.id,
                message := "bob" ++ " liked your post",
                groupKey := some ("post_like_" ++ toString postFresh.id) }]) ∧
      likePost p1 2 "bob" = some (p2, { likesCount := 0, isLiked := false }, []) :=
  c7_like_toggle postFresh 2 "bob" rfl rfl

end SMB
